import Mathlib

/-!
Verification of the spot-market balance and margin-weight accounting engine
(`programs/drift/src/state/spot_market.rs`).

Embedding conventions.  Machine integers are embedded as `Nat`, reduced
modulo `2^w` exactly at the operations where Rust's release-mode unchecked
arithmetic wraps (`u128::pow`, `u128` multiplication, `u64::pow`).  Division
on machine integers truncates; Rust's built-in division aborts with a panic
when the divisor is zero, which is embedded as the distinguished error
`ErrorCode.Panic`, kept separate from the `ErrorCode.MathError` that the
checked `SafeMath` helpers return inside `DriftResult`.  Fallible code
returns `Except`.

The file embeds `SpotMarket` and its methods from the source.  The helpers
the source calls from sibling modules that are not part of the excerpt
(`SafeMath`, the two margin-weight curve functions, `get_token_amount`, the
numeric precision constants and the `MarketStatus` / `MarginRequirementType`
enums) are modelled from the specification; each such definition carries a
doc comment starting with "Modelled from the spec" naming what is missing.
-/

namespace Drift

/-- Modulus of the `u128` machine-integer type. -/
def U128_MOD : Nat := 2 ^ 128

/-- Modulus of the `u64` machine-integer type. -/
def U64_MOD : Nat := 2 ^ 64

/-- Modulus of the `u32` machine-integer type. -/
def U32_MOD : Nat := 2 ^ 32

/-- Error outcomes.  `MathError` and `CastingFailure` embed the error codes
the checked arithmetic and checked narrowing helpers return inside
`DriftResult`; `Panic` embeds an aborting Rust panic (division by zero),
which is not a `DriftResult` arithmetic-error result. -/
inductive ErrorCode
  | MathError
  | CastingFailure
  | Panic
deriving DecidableEq

/-- `DriftResult<T>` from `crate::error`: a fallible result. -/
abbrev DriftResult (α : Type) : Type := Except ErrorCode α

/-- Modelled from the spec: checked `u128` addition from
`crate::math::safe_math::SafeMath` (not under `src/`); per §4.1 every
add/subtract/multiply/divide "must detect overflow, underflow, or division
errors and fail with an arithmetic-error condition rather than wrapping". -/
def u128_safe_add (a b : Nat) : DriftResult Nat :=
  if a + b < U128_MOD then .ok (a + b) else .error .MathError

/-- Modelled from the spec: checked `u128` multiplication from
`crate::math::safe_math::SafeMath` (not under `src/`). -/
def u128_safe_mul (a b : Nat) : DriftResult Nat :=
  if a * b < U128_MOD then .ok (a * b) else .error .MathError

/-- Modelled from the spec: checked `u128` subtraction from
`crate::math::safe_math::SafeMath` (not under `src/`); fails on underflow. -/
def u128_safe_sub (a b : Nat) : DriftResult Nat :=
  if b ≤ a then .ok (a - b) else .error .MathError

/-- Modelled from the spec: checked `u32` addition from
`crate::math::safe_math::SafeMath` (not under `src/`). -/
def u32_safe_add (a b : Nat) : DriftResult Nat :=
  if a + b < U32_MOD then .ok (a + b) else .error .MathError

/-- Modelled from the spec: checked `u32` subtraction from
`crate::math::safe_math::SafeMath` (not under `src/`); fails on underflow. -/
def u32_safe_sub (a b : Nat) : DriftResult Nat :=
  if b ≤ a then .ok (a - b) else .error .MathError

/-- Modelled from the spec: checked narrowing of a `u128` value into `u32`
(the `cast` helper of `crate::math::casting`, not under `src/`); fails when
the value does not fit. -/
def u32_cast (a : Nat) : DriftResult Nat :=
  if a < U32_MOD then .ok a else .error .CastingFailure

/-- Modelled from the spec: the canonical reserve-precision constant
`AMM_RESERVE_PRECISION` of `crate::math::constants` (not under `src/`);
§6 requires "a reserve-precision constant (canonical size unit)", a power of
ten; the canonical value `10^9` matches the spec's scenarios in which a
`decimals = 9` market rescales by the identity. -/
def AMM_RESERVE_PRECISION : Nat := 10 ^ 9

/-- Modelled from the spec: the weight-precision constant
`SPOT_WEIGHT_PRECISION_U128` of `crate::math::constants` (not under `src/`);
§6 requires "a weight-precision constant (u128 denominator)"; the spec's
scenarios use flat weights of `10000` as the unit weight, fixing `10^4`. -/
def SPOT_WEIGHT_PRECISION_U128 : Nat := 10 ^ 4

/-- Modelled from the spec: the margin-precision constant `MARGIN_PRECISION`
of `crate::math::constants` (not under `src/`); §6 requires "a
margin-precision constant (weight fraction denominator)"; the unit weight
`10000` of the spec's scenarios fixes `10^4`. -/
def MARGIN_PRECISION : Nat := 10 ^ 4

/-- Modelled from the spec: the IMF-precision constant of
`crate::math::constants` (not under `src/`), the fixed-point scale of the
`imf_factor` curve-steepness parameter (§4.3); a power of ten, taken as
`10^6`. -/
def SPOT_IMF_PRECISION : Nat := 10 ^ 6

/-- Modelled from the spec: the interest-precision constant
`SPOT_CUMULATIVE_INTEREST_PRECISION` of `crate::math::constants` (not under
`src/`); §6 requires "an interest precision constant", a power of ten, taken
as `10^10`. -/
def SPOT_CUMULATIVE_INTEREST_PRECISION : Nat := 10 ^ 10

/-- Modelled from the spec: the market lifecycle status enum
`crate::state::perp_market::MarketStatus` (declared outside `src/`); §3
lists the variants "Active, ReduceOnly, Settlement, Delisted, …". -/
inductive MarketStatus
  | Active
  | ReduceOnly
  | Settlement
  | Delisted
deriving DecidableEq

/-- Modelled from the spec: the margin requirement selector
`crate::math::margin::MarginRequirementType` (not under `src/`); §6: "a
margin-requirement-type selector (`Initial` | `Maintenance`)". -/
inductive MarginRequirementType
  | Initial
  | Maintenance
deriving DecidableEq

/-- `AssetTier` (source lines 280-287). -/
inductive AssetTier
  | Collateral
  | Protected
  | Cross
  | Isolated
  | Unlisted
deriving DecidableEq

/-- `SpotBalanceType` (source lines 212-216). -/
inductive SpotBalanceType
  | Deposit
  | Borrow
deriving DecidableEq

/-- The fields of `SpotMarket` (source lines 25-72) read by the operations
under verification.  Opaque identifiers (pubkeys, name), oracle snapshots,
pool balances, the insurance fund, TWAP/order-sizing/bound fields and
padding are carried by no claimed operation and are omitted. -/
structure SpotMarket where
  deposit_balance : Nat
  borrow_balance : Nat
  cumulative_deposit_interest : Nat
  cumulative_borrow_interest : Nat
  expiry_ts : Int
  initial_asset_weight : Nat
  maintenance_asset_weight : Nat
  initial_liability_weight : Nat
  maintenance_liability_weight : Nat
  imf_factor : Nat
  decimals : Nat
  status : MarketStatus
  asset_tier : AssetTier

/-- `SpotMarket::is_active` (source lines 75-82). -/
def SpotMarket.is_active (m : SpotMarket) (now : Int) : DriftResult Bool :=
  let status_ok : Bool :=
    !(match m.status with
      | .Settlement => true
      | .Delisted => true
      | _ => false)
  let not_expired : Bool := decide (m.expiry_ts = 0) || decide (now < m.expiry_ts)
  .ok (status_ok && not_expired)

/-- `SpotMarket::get_sanitize_clamp_denominator` (source lines 88-96). -/
def SpotMarket.get_sanitize_clamp_denominator (m : SpotMarket) :
    DriftResult (Option Int) :=
  .ok (match m.asset_tier with
    | .Collateral => some 10
    | .Protected => some 10
    | .Cross => some 5
    | .Isolated => some 3
    | .Unlisted => none)

/-- The local `size_precision` binding of source lines 103 and 126:
`10_u128.pow(self.decimals)`, unchecked `u128` exponentiation, which wraps
modulo `2^128` in release builds. -/
def size_precision_of (decimals : Nat) : Nat :=
  10 ^ decimals % U128_MOD

/-- The rescaling of a size into canonical reserve precision, inlined
identically at source lines 103-109 (`get_asset_weight`) and 126-132
(`get_liability_weight`).  All arithmetic here is Rust's plain (unchecked)
`u128` arithmetic: the multiplication wraps modulo `2^128` in release
builds, division truncates, and division by zero — reachable only when
`10^decimals` wraps to `0`, i.e. `decimals ≥ 128` — panics, embedded as
`ErrorCode.Panic`.  (In the branch `size_precision > AMM_RESERVE_PRECISION`
the divisor `size_precision / AMM_RESERVE_PRECISION` is at least `1`.) -/
def size_in_amm_reserve_precision (size : Nat) (decimals : Nat) :
    DriftResult Nat :=
  if AMM_RESERVE_PRECISION < size_precision_of decimals then
    .ok (size / (size_precision_of decimals / AMM_RESERVE_PRECISION))
  else if size_precision_of decimals = 0 then
    .error .Panic
  else
    .ok (size * AMM_RESERVE_PRECISION % U128_MOD / size_precision_of decimals)

/-- Modelled from the spec: the asset-weight size-discount curve
`crate::math::margin::calculate_size_discount_asset_weight` (not under
`src/`).  §4.3 fixes: a pure function of a size in canonical reserve
precision, the `imf_factor` and a base weight; a no-op (the base weight
unchanged) at zero size or zero `imf_factor`; a discount below the base
weight that strengthens monotonically with size and with `imf_factor`; all
arithmetic checked per §4.1.  The concrete shape is the simple hyperbolic
decay `base * P / (P + size * imf / R)` with `P = SPOT_IMF_PRECISION` and
`R = AMM_RESERVE_PRECISION`, which satisfies exactly these properties, the
final value checked-narrowed into `u32`. -/
def calculate_size_discount_asset_weight (size : Nat) (imf_factor : Nat)
    (asset_weight : Nat) : DriftResult Nat :=
  if imf_factor = 0 then .ok asset_weight
  else
    match u128_safe_mul size imf_factor with
    | .error e => .error e
    | .ok scaled =>
      match u128_safe_add SPOT_IMF_PRECISION (scaled / AMM_RESERVE_PRECISION) with
      | .error e => .error e
      | .ok denom =>
        match u128_safe_mul asset_weight SPOT_IMF_PRECISION with
        | .error e => .error e
        | .ok num => u32_cast (num / denom)

/-- Modelled from the spec: the liability-weight size-premium curve
`crate::math::margin::calculate_size_premium_liability_weight` (not under
`src/`).  §4.3 fixes: a pure function of a size in canonical reserve
precision, the `imf_factor`, a base weight and a weight-precision constant;
a premium above the flat base that grows monotonically (non-decreasing) with
size; all arithmetic checked per §4.1, the premium checked-narrowed into
`u32` and checked-added to the base.  The concrete shape is the linear
premium `size * imf / (SPOT_IMF_PRECISION * AMM_RESERVE_PRECISION)` rescaled
into the given weight precision, which satisfies exactly these properties
(in particular it is a no-op at zero size or zero `imf_factor`). -/
def calculate_size_premium_liability_weight (size : Nat) (imf_factor : Nat)
    (liability_weight : Nat) (precision : Nat) : DriftResult Nat :=
  if imf_factor = 0 then .ok liability_weight
  else
    match u128_safe_mul size imf_factor with
    | .error e => .error e
    | .ok scaled =>
      match u128_safe_mul (scaled / (SPOT_IMF_PRECISION * AMM_RESERVE_PRECISION))
          precision with
      | .error e => .error e
      | .ok p =>
        match u32_cast p with
        | .error e => .error e
        | .ok premium => u32_safe_add liability_weight premium

/-- `SpotMarket::get_asset_weight` (source lines 98-119). -/
def SpotMarket.get_asset_weight (m : SpotMarket) (size : Nat)
    (margin_requirement_type : MarginRequirementType) : DriftResult Nat :=
  match size_in_amm_reserve_precision size m.decimals with
  | .error e => .error e
  | .ok size_in_reserve =>
    match margin_requirement_type with
    | .Initial =>
      calculate_size_discount_asset_weight size_in_reserve m.imf_factor
        m.initial_asset_weight
    | .Maintenance => .ok m.maintenance_asset_weight

/-- The flat (size-independent) liability weight selected per requirement
type, the `default_liability_weight` binding of source lines 134-137 and the
selector of `get_margin_ratio` (source lines 156-159). -/
def SpotMarket.base_liability_weight (m : SpotMarket)
    (margin_requirement_type : MarginRequirementType) : Nat :=
  match margin_requirement_type with
  | .Initial => m.initial_liability_weight
  | .Maintenance => m.maintenance_liability_weight

/-- `SpotMarket::get_liability_weight` (source lines 121-149). -/
def SpotMarket.get_liability_weight (m : SpotMarket) (size : Nat)
    (margin_requirement_type : MarginRequirementType) : DriftResult Nat :=
  match size_in_amm_reserve_precision size m.decimals with
  | .error e => .error e
  | .ok size_in_reserve =>
    match calculate_size_premium_liability_weight size_in_reserve m.imf_factor
        (m.base_liability_weight margin_requirement_type)
        SPOT_WEIGHT_PRECISION_U128 with
    | .error e => .error e
    | .ok size_based_liability_weight =>
      .ok (max size_based_liability_weight
        (m.base_liability_weight margin_requirement_type))

/-- `SpotMarket::get_margin_ratio` (source lines 152-161). -/
def SpotMarket.get_margin_ratio (m : SpotMarket)
    (margin_requirement_type : MarginRequirementType) : DriftResult Nat :=
  u32_safe_sub (m.base_liability_weight margin_requirement_type) MARGIN_PRECISION

/-- Modelled from the spec: `crate::math::spot_balance::get_token_amount`
(not under `src/`).  §4.2: "multiplies the normalized balance by the
side-appropriate cumulative interest index and divides by the interest
precision constant.  Fails with an arithmetic error on overflow."; division
truncates per §4.1. -/
def get_token_amount (balance : Nat) (m : SpotMarket)
    (balance_type : SpotBalanceType) : DriftResult Nat :=
  let cumulative_interest :=
    match balance_type with
    | .Deposit => m.cumulative_deposit_interest
    | .Borrow => m.cumulative_borrow_interest
  match u128_safe_mul balance cumulative_interest with
  | .error e => .error e
  | .ok p => .ok (p / SPOT_CUMULATIVE_INTEREST_PRECISION)

/-- `SpotMarket::get_available_deposits` (source lines 163-171). -/
def SpotMarket.get_available_deposits (m : SpotMarket) : DriftResult Nat :=
  match get_token_amount m.deposit_balance m .Deposit with
  | .error e => .error e
  | .ok deposit_token_amount =>
    match get_token_amount m.borrow_balance m .Borrow with
    | .error e => .error e
    | .ok borrow_token_amount =>
      u128_safe_sub deposit_token_amount borrow_token_amount

/-- `SpotMarket::get_precision` (source lines 173-175):
`10_u64.pow(self.decimals)`, unchecked `u64` exponentiation, which wraps
modulo `2^64` in release builds. -/
def SpotMarket.get_precision (m : SpotMarket) : Nat :=
  10 ^ m.decimals % U64_MOD

/-- The tier → sanitize-clamp-denominator table transcribed from the spec's
§4.4 table, to be compared against the source lookup. -/
def clamp_denominator_spec : AssetTier → Option Int
  | .Collateral => some 10
  | .Protected => some 10
  | .Cross => some 5
  | .Isolated => some 3
  | .Unlisted => none

/-- `SpotMarket::default_base_market` (source lines 180-194), restricted to
the embedded fields; the remaining source fields take `Default` values
(`status` is set explicitly, `AssetTier`'s default is `Unlisted`). -/
def default_base_market : SpotMarket := {
  deposit_balance := 0,
  borrow_balance := 0,
  cumulative_deposit_interest := SPOT_CUMULATIVE_INTEREST_PRECISION,
  cumulative_borrow_interest := SPOT_CUMULATIVE_INTEREST_PRECISION,
  expiry_ts := 0,
  initial_asset_weight := 8000,
  maintenance_asset_weight := 9000,
  initial_liability_weight := 12000,
  maintenance_liability_weight := 11000,
  imf_factor := 0,
  decimals := 9,
  status := .Active,
  asset_tier := .Unlisted
}

/-- `SpotMarket::default_quote_market` (source lines 196-209), restricted to
the embedded fields. -/
def default_quote_market : SpotMarket := {
  deposit_balance := 0,
  borrow_balance := 0,
  cumulative_deposit_interest := SPOT_CUMULATIVE_INTEREST_PRECISION,
  cumulative_borrow_interest := SPOT_CUMULATIVE_INTEREST_PRECISION,
  expiry_ts := 0,
  initial_asset_weight := 10000,
  maintenance_asset_weight := 10000,
  initial_liability_weight := 10000,
  maintenance_liability_weight := 10000,
  imf_factor := 0,
  decimals := 6,
  status := .Active,
  asset_tier := .Unlisted
}

/-- A base market whose token has `decimals = 0`, so the rescaling takes the
scale-up branch with divisor `1`. -/
def decimals_zero_market : SpotMarket :=
  { default_base_market with decimals := 0 }

/-- A base market with a non-zero `imf_factor`, exercising the
liability-weight size premium. -/
def premium_market : SpotMarket :=
  { default_base_market with imf_factor := 10 ^ 6 }

/-- A `decimals = 0` market with a non-zero `imf_factor`, exercising the
asset-weight discount across the rescaling's wrap-around boundary. -/
def wrap_discount_market : SpotMarket :=
  { default_base_market with decimals := 0, imf_factor := 1 }

/-- A market whose token precision exponent exceeds the largest power of ten
representable in `u64`. -/
def decimals_twenty_market : SpotMarket :=
  { default_base_market with decimals := 20 }

/-- A base market variant differing from `default_base_market` only in
`imf_factor`, `decimals` and a balance field. -/
def margin_ratio_variant_market : SpotMarket :=
  { default_base_market with
    imf_factor := 777
    decimals := 3
    deposit_balance := 5 }

/-- A market carrying a deposit balance smaller than its borrow balance. -/
def shortfall_market : SpotMarket :=
  { default_base_market with deposit_balance := 100, borrow_balance := 300 }

/-! ## Helper lemmas -/

theorem pow10_lt_u128 {d : Nat} (h : d ≤ 38) : 10 ^ d < U128_MOD := by
  have h1 : (10 : Nat) ^ d ≤ 10 ^ 38 := Nat.pow_le_pow_right (by norm_num) h
  have h2 : (10 : Nat) ^ 38 < U128_MOD := by norm_num [U128_MOD]
  omega

theorem size_precision_of_eq {d : Nat} (h : d ≤ 38) :
    size_precision_of d = 10 ^ d := by
  unfold size_precision_of
  exact Nat.mod_eq_of_lt (pow10_lt_u128 h)

theorem size_precision_of_ne_zero {d : Nat} (h : d ≤ 127) :
    size_precision_of d ≠ 0 := by
  unfold size_precision_of U128_MOD
  intro h0
  have hdvd : (2 : Nat) ^ 128 ∣ 10 ^ d := Nat.dvd_of_mod_eq_zero h0
  have h25 : (10 : Nat) ^ d = 2 ^ d * 5 ^ d := by
    rw [← Nat.mul_pow]
  rw [h25] at hdvd
  have hcop : Nat.Coprime ((2 : Nat) ^ 128) (5 ^ d) :=
    Nat.Coprime.pow _ _ (by decide)
  have hdvd2 : (2 : Nat) ^ 128 ∣ 2 ^ d := hcop.dvd_of_dvd_mul_right hdvd
  have hle : (2 : Nat) ^ 128 ≤ 2 ^ d :=
    Nat.le_of_dvd (Nat.pow_pos (by decide)) hdvd2
  have hlt : (2 : Nat) ^ d < 2 ^ 128 :=
    Nat.pow_lt_pow_right (by decide) (by omega)
  omega

theorem scale_isOk {size d : Nat} (h : d ≤ 127) :
    ∃ v, size_in_amm_reserve_precision size d = .ok v := by
  unfold size_in_amm_reserve_precision
  by_cases hc : AMM_RESERVE_PRECISION < size_precision_of d
  · rw [if_pos hc]; exact ⟨_, rfl⟩
  · rw [if_neg hc, if_neg (size_precision_of_ne_zero h)]; exact ⟨_, rfl⟩

theorem scale_zero {d : Nat} (h : d ≤ 127) :
    size_in_amm_reserve_precision 0 d = .ok 0 := by
  unfold size_in_amm_reserve_precision
  by_cases hc : AMM_RESERVE_PRECISION < size_precision_of d
  · rw [if_pos hc]
    simp
  · rw [if_neg hc, if_neg (size_precision_of_ne_zero h)]
    simp

theorem scale_mono {d s1 s2 v1 v2 : Nat} (hd : d ≤ 38)
    (hov : s2 * AMM_RESERVE_PRECISION < U128_MOD) (hs : s1 ≤ s2)
    (h1 : size_in_amm_reserve_precision s1 d = .ok v1)
    (h2 : size_in_amm_reserve_precision s2 d = .ok v2) : v1 ≤ v2 := by
  unfold size_in_amm_reserve_precision at h1 h2
  by_cases hc : AMM_RESERVE_PRECISION < size_precision_of d
  · rw [if_pos hc] at h1 h2
    have e1 := Except.ok.inj h1
    have e2 := Except.ok.inj h2
    subst e1; subst e2
    exact Nat.div_le_div_right hs
  · rw [if_neg hc, if_neg (size_precision_of_ne_zero (by omega))] at h1 h2
    have e1 := Except.ok.inj h1
    have e2 := Except.ok.inj h2
    subst e1; subst e2
    have hov1 : s1 * AMM_RESERVE_PRECISION < U128_MOD :=
      lt_of_le_of_lt (Nat.mul_le_mul_right _ hs) hov
    rw [Nat.mod_eq_of_lt hov1, Nat.mod_eq_of_lt hov]
    exact Nat.div_le_div_right (Nat.mul_le_mul_right _ hs)

theorem discount_ok_elim {x imf base w : Nat} (himf : imf ≠ 0)
    (h : calculate_size_discount_asset_weight x imf base = .ok w) :
    w = base * SPOT_IMF_PRECISION /
      (SPOT_IMF_PRECISION + x * imf / AMM_RESERVE_PRECISION) := by
  unfold calculate_size_discount_asset_weight u128_safe_mul u128_safe_add
    u32_cast at h
  rw [if_neg himf] at h
  by_cases h1 : x * imf < U128_MOD
  · rw [if_pos h1] at h
    dsimp only at h
    by_cases h2 : SPOT_IMF_PRECISION + x * imf / AMM_RESERVE_PRECISION < U128_MOD
    · rw [if_pos h2] at h
      dsimp only at h
      by_cases h3 : base * SPOT_IMF_PRECISION < U128_MOD
      · rw [if_pos h3] at h
        dsimp only at h
        by_cases h4 : base * SPOT_IMF_PRECISION /
            (SPOT_IMF_PRECISION + x * imf / AMM_RESERVE_PRECISION) < U32_MOD
        · rw [if_pos h4] at h
          exact (Except.ok.inj h).symm
        · rw [if_neg h4] at h
          simp at h
      · rw [if_neg h3] at h
        simp at h
    · rw [if_neg h2] at h
      simp at h
  · rw [if_neg h1] at h
    simp at h

theorem discount_mono {x1 x2 imf base w1 w2 : Nat} (hx : x1 ≤ x2)
    (h1 : calculate_size_discount_asset_weight x1 imf base = .ok w1)
    (h2 : calculate_size_discount_asset_weight x2 imf base = .ok w2) :
    w2 ≤ w1 := by
  by_cases himf : imf = 0
  · subst himf
    unfold calculate_size_discount_asset_weight at h1 h2
    rw [if_pos rfl] at h1 h2
    have e1 := Except.ok.inj h1
    have e2 := Except.ok.inj h2
    omega
  · rw [discount_ok_elim himf h1, discount_ok_elim himf h2]
    apply Nat.div_le_div_left
    · exact Nat.add_le_add_left
        (Nat.div_le_div_right (Nat.mul_le_mul_right _ hx)) _
    · have hP : (0 : Nat) < SPOT_IMF_PRECISION := by norm_num [SPOT_IMF_PRECISION]
      exact Nat.lt_of_lt_of_le hP (Nat.le_add_right _ _)

theorem discount_at_zero {imf base : Nat} (hb : base < U32_MOD) :
    calculate_size_discount_asset_weight 0 imf base = .ok base := by
  by_cases himf : imf = 0
  · subst himf
    unfold calculate_size_discount_asset_weight
    rw [if_pos rfl]
  · unfold calculate_size_discount_asset_weight u128_safe_mul u128_safe_add
      u32_cast
    rw [if_neg himf, Nat.zero_mul]
    rw [if_pos (show (0 : Nat) < U128_MOD by norm_num [U128_MOD])]
    dsimp only
    rw [Nat.zero_div, Nat.add_zero]
    rw [if_pos (show SPOT_IMF_PRECISION < U128_MOD by
      norm_num [SPOT_IMF_PRECISION, U128_MOD])]
    dsimp only
    have hnum : base * SPOT_IMF_PRECISION < U128_MOD := by
      have hlt : base * SPOT_IMF_PRECISION < U32_MOD * SPOT_IMF_PRECISION :=
        (Nat.mul_lt_mul_right (by norm_num [SPOT_IMF_PRECISION])).mpr hb
      have hbound : U32_MOD * SPOT_IMF_PRECISION < U128_MOD := by
        norm_num [U32_MOD, SPOT_IMF_PRECISION, U128_MOD]
      omega
    rw [if_pos hnum]
    dsimp only
    rw [Nat.mul_div_cancel _ (by norm_num [SPOT_IMF_PRECISION])]
    rw [if_pos hb]

theorem premium_imf_zero {x base prec : Nat} :
    calculate_size_premium_liability_weight x 0 base prec = .ok base := by
  unfold calculate_size_premium_liability_weight
  rw [if_pos rfl]

/-! ## Claim theorems -/

/-- C1 (corrected), counterexample: at `size = 2^128 - 1` and `decimals = 0`
the rescaling's multiplication `size * AMM_RESERVE_PRECISION` overflows
`u128` (first conjunct), yet the rescaled value is the silently wrapped
`2^128 - 10^9` — not the exact quotient (third conjunct) — and
`get_asset_weight` returns an `Ok` result instead of an arithmetic-error
result (fourth conjunct), refuting the claim that the rescaling detects
overflow for every `u128` size and every decimals. -/
theorem c1_rescale_overflow_counterexample :
    U128_MOD ≤ (2 ^ 128 - 1) * AMM_RESERVE_PRECISION ∧
    size_in_amm_reserve_precision (2 ^ 128 - 1) 0 = .ok (U128_MOD - 10 ^ 9) ∧
    U128_MOD - 10 ^ 9 ≠ (2 ^ 128 - 1) * AMM_RESERVE_PRECISION / 10 ^ (0 : Nat) ∧
    decimals_zero_market.get_asset_weight (2 ^ 128 - 1) .Maintenance = .ok 9000 :=
  ⟨by decide, rfl, by decide, rfl⟩

/-- C1 (corrected), amended: the rescaling of size into canonical reserve
precision performs no overflow detection at all — it is plain wrapping
`u128` arithmetic with truncating division.  For every size and every
`decimals ≤ 127` it returns a value (never an arithmetic-error result), and
consequently `get_asset_weight` (and, when the size curve is inert,
`get_liability_weight`) succeed under `Maintenance` for every size; the only
aborting case is the division-by-zero panic when `10^decimals` wraps to `0`
(`decimals ≥ 128`), which is a panic, not an arithmetic-error result. -/
theorem c1_rescale_unchecked_amended :
    (∀ size d : Nat, d ≤ 127 → ∃ v, size_in_amm_reserve_precision size d = .ok v) ∧
    (∀ (m : SpotMarket) (size : Nat), m.decimals ≤ 127 →
      (m.get_asset_weight size .Maintenance).isOk = true) ∧
    (∀ (m : SpotMarket) (size : Nat), m.decimals ≤ 127 → m.imf_factor = 0 →
      (m.get_liability_weight size .Maintenance).isOk = true) := by
  refine ⟨fun size d h => scale_isOk h, ?_, ?_⟩
  · intro m size h
    obtain ⟨v, hv⟩ := @scale_isOk size m.decimals h
    unfold SpotMarket.get_asset_weight
    rw [hv]
    rfl
  · intro m size h h0
    obtain ⟨v, hv⟩ := @scale_isOk size m.decimals h
    unfold SpotMarket.get_liability_weight
    rw [hv]
    dsimp only
    rw [h0, premium_imf_zero]
    rfl

/-- Witness for the amended C1 theorem at concrete inputs. -/
theorem c1_rescale_unchecked_witness :
    (∃ v, size_in_amm_reserve_precision 123 9 = .ok v) ∧
    (default_base_market.get_asset_weight 5 .Maintenance).isOk = true ∧
    (default_base_market.get_liability_weight 5 .Maintenance).isOk = true :=
  ⟨c1_rescale_unchecked_amended.1 123 9 (by decide),
   c1_rescale_unchecked_amended.2.1 default_base_market 5 (by decide),
   c1_rescale_unchecked_amended.2.2 default_base_market 5 (by decide) rfl⟩

/-- C2 (corrected), counterexample: with a non-zero `imf_factor` and a large
size, `get_liability_weight` under `Maintenance` does invoke the size
premium and returns `111000`, not the flat `maintenance_liability_weight`
of `11000`. -/
theorem c2_maintenance_premium_counterexample :
    premium_market.maintenance_liability_weight = 11000 ∧
    0 < premium_market.imf_factor ∧
    premium_market.get_liability_weight (10 ^ 10) .Maintenance = .ok 111000 ∧
    (111000 : Nat) ≠ 11000 :=
  ⟨rfl, by decide, rfl, by decide⟩

/-- C2 (corrected), amended: `get_asset_weight` under `Maintenance` never
invokes the size curve and equals the flat `maintenance_asset_weight` for
every size and `imf_factor` (for every `decimals ≤ 127`, i.e. whenever the
rescaling does not panic); `get_liability_weight` under `Maintenance` does
invoke the size curve, and equals the flat `maintenance_liability_weight`
whenever `imf_factor = 0`. -/
theorem c2_maintenance_flat_amended :
    (∀ (m : SpotMarket) (size : Nat), m.decimals ≤ 127 →
      m.get_asset_weight size .Maintenance = .ok m.maintenance_asset_weight) ∧
    (∀ (m : SpotMarket) (size : Nat), m.decimals ≤ 127 → m.imf_factor = 0 →
      m.get_liability_weight size .Maintenance = .ok m.maintenance_liability_weight) := by
  constructor
  · intro m size h
    obtain ⟨v, hv⟩ := @scale_isOk size m.decimals h
    unfold SpotMarket.get_asset_weight
    rw [hv]
  · intro m size h h0
    obtain ⟨v, hv⟩ := @scale_isOk size m.decimals h
    unfold SpotMarket.get_liability_weight
    rw [hv]
    dsimp only
    rw [h0, premium_imf_zero]
    simp [SpotMarket.base_liability_weight, Nat.max_self]

/-- Witness for the amended C2 theorem at concrete inputs. -/
theorem c2_maintenance_flat_witness :
    default_base_market.get_asset_weight 42 .Maintenance = .ok 9000 ∧
    default_base_market.get_liability_weight 42 .Maintenance = .ok 11000 :=
  ⟨c2_maintenance_flat_amended.1 default_base_market 42 (by decide),
   c2_maintenance_flat_amended.2 default_base_market 42 (by decide) rfl⟩

/-- C3 (confirmed): whenever `get_liability_weight` returns a value, that
value is at least the flat base liability weight selected by the requirement
type — the final value is the `max` of the premium-adjusted weight and the
base, so the premium can only be more conservative. -/
theorem c3_liability_weight_ge_base :
    ∀ (m : SpotMarket) (size : Nat) (rt : MarginRequirementType) (w : Nat),
      m.get_liability_weight size rt = .ok w → m.base_liability_weight rt ≤ w := by
  intro m size rt w h
  unfold SpotMarket.get_liability_weight at h
  cases hs : size_in_amm_reserve_precision size m.decimals with
  | error e => rw [hs] at h; simp at h
  | ok s =>
    rw [hs] at h
    dsimp only at h
    cases hp : calculate_size_premium_liability_weight s m.imf_factor
        (m.base_liability_weight rt) SPOT_WEIGHT_PRECISION_U128 with
    | error e => rw [hp] at h; simp at h
    | ok sbw =>
      rw [hp] at h
      dsimp only at h
      have e := Except.ok.inj h
      rw [← e]
      exact Nat.le_max_right _ _

/-- Witness for C3 at a concrete market with an active size premium. -/
theorem c3_liability_weight_ge_base_witness :
    premium_market.base_liability_weight .Maintenance ≤ 111000 :=
  c3_liability_weight_ge_base premium_market (10 ^ 10) .Maintenance 111000 (by rfl)

/-- C4 (confirmed): `get_margin_ratio` returns the flat liability weight for
the requirement type minus `MARGIN_PRECISION`, succeeding exactly when the
weight is at least the constant and failing with the arithmetic-error result
exactly when it is below; the quote-market scenario returns
`10000 - MARGIN_PRECISION`. -/
theorem c4_margin_ratio_characterization :
    (∀ (m : SpotMarket) (rt : MarginRequirementType) (w : Nat),
      m.get_margin_ratio rt = .ok w ↔
        (MARGIN_PRECISION ≤ m.base_liability_weight rt ∧
          w = m.base_liability_weight rt - MARGIN_PRECISION)) ∧
    (∀ (m : SpotMarket) (rt : MarginRequirementType),
      m.get_margin_ratio rt = .error .MathError ↔
        m.base_liability_weight rt < MARGIN_PRECISION) ∧
    default_quote_market.get_margin_ratio .Initial = .ok (10000 - MARGIN_PRECISION) := by
  refine ⟨?_, ?_, rfl⟩
  · intro m rt w
    unfold SpotMarket.get_margin_ratio u32_safe_sub
    split
    · rename_i hge
      simp only [Except.ok.injEq]
      omega
    · rename_i hlt
      simp only [reduceCtorEq, false_iff, not_and]
      omega
  · intro m rt
    unfold SpotMarket.get_margin_ratio u32_safe_sub
    split
    · rename_i hge
      simp only [reduceCtorEq, false_iff, not_lt]
      omega
    · rename_i hlt
      simp only [Except.error.injEq, true_iff]
      omega

/-- Witness for C4 at the quote market. -/
theorem c4_margin_ratio_witness :
    default_quote_market.get_margin_ratio .Maintenance = .ok 0 :=
  (c4_margin_ratio_characterization.1 default_quote_market .Maintenance 0).mpr
    ⟨by decide, by decide⟩

/-- C6 (confirmed): `get_available_deposits` converts both normalized
balances through their side's cumulative interest index and returns the
difference, failing with the arithmetic-error result — never wrapping —
exactly when the borrow token amount exceeds the deposit token amount. -/
theorem c6_available_deposits_underflow_checked :
    ∀ (m : SpotMarket) (d b : Nat),
      get_token_amount m.deposit_balance m .Deposit = .ok d →
      get_token_amount m.borrow_balance m .Borrow = .ok b →
      (b ≤ d → m.get_available_deposits = .ok (d - b)) ∧
      (d < b → m.get_available_deposits = .error .MathError) := by
  intro m d b hd hb
  unfold SpotMarket.get_available_deposits
  rw [hd]
  dsimp only
  rw [hb]
  dsimp only
  unfold u128_safe_sub
  constructor
  · intro h
    rw [if_pos h]
  · intro h
    rw [if_neg (by omega)]

/-- Witness for C6: a market whose borrow token amount exceeds its deposit
token amount fails with the arithmetic-error result. -/
theorem c6_available_deposits_witness :
    shortfall_market.get_available_deposits = .error .MathError :=
  (c6_available_deposits_underflow_checked shortfall_market 100 300 rfl rfl).2
    (by decide)

/-- C7 (confirmed): `is_active(now)` is true iff the status is neither
`Settlement` nor `Delisted` and (`expiry_ts = 0` or `now < expiry_ts`); it
is false for `Settlement`/`Delisted` regardless of expiry, and false once
`now ≥ expiry_ts` for any non-zero expiry regardless of status. -/
theorem c7_is_active_characterization :
    (∀ (m : SpotMarket) (now : Int),
      m.is_active now = .ok true ↔
        ((m.status ≠ .Settlement ∧ m.status ≠ .Delisted) ∧
          (m.expiry_ts = 0 ∨ now < m.expiry_ts))) ∧
    (∀ (m : SpotMarket) (now : Int),
      m.status = .Settlement ∨ m.status = .Delisted →
        m.is_active now = .ok false) ∧
    (∀ (m : SpotMarket) (now : Int),
      m.expiry_ts ≠ 0 → m.expiry_ts ≤ now → m.is_active now = .ok false) := by
  refine ⟨?_, ?_, ?_⟩
  · intro m now
    cases hs : m.status <;>
      simp [SpotMarket.is_active, hs, Except.ok.injEq, Bool.and_eq_true,
        Bool.or_eq_true, decide_eq_true_eq]
  · intro m now h
    rcases h with h | h <;> simp [SpotMarket.is_active, h]
  · intro m now h1 h2
    have he : decide (m.expiry_ts = 0) = false := decide_eq_false h1
    have hn : decide (now < m.expiry_ts) = false :=
      decide_eq_false (not_lt.mpr h2)
    simp [SpotMarket.is_active, he, hn]

/-- Witness for C7 at concrete markets. -/
theorem c7_is_active_witness :
    SpotMarket.is_active { default_base_market with status := .Settlement } 0 = .ok false ∧
    SpotMarket.is_active { default_base_market with expiry_ts := 5 } 9 = .ok false :=
  ⟨c7_is_active_characterization.2.1 _ 0 (Or.inl rfl),
   c7_is_active_characterization.2.2 _ 9 (by decide) (by decide)⟩

/-- C8 (confirmed): `get_sanitize_clamp_denominator` is the exact,
exhaustive lookup Collateral ↦ some 10, Protected ↦ some 10, Cross ↦ some 5,
Isolated ↦ some 3, Unlisted ↦ none: it returns `Ok` of the spec's table at
the market's tier on every market and never fails. -/
theorem c8_clamp_denominator_table (m : SpotMarket) :
    m.get_sanitize_clamp_denominator = .ok (clamp_denominator_spec m.asset_tier) := by
  cases h : m.asset_tier <;>
    simp [SpotMarket.get_sanitize_clamp_denominator, clamp_denominator_spec, h]

/-- C9 (corrected), counterexample: at `decimals = 20` the unchecked `u64`
power wraps and `get_precision` returns `7766279631452241920 =
10^20 mod 2^64`, not `10^20`. -/
theorem c9_precision_wrap_counterexample :
    decimals_twenty_market.decimals = 20 ∧
    decimals_twenty_market.get_precision = 7766279631452241920 ∧
    (7766279631452241920 : Nat) ≠ 10 ^ 20 :=
  ⟨rfl, rfl, by decide⟩

/-- C9 (corrected), amended: `get_precision` returns `10^decimals` exactly
whenever `decimals ≤ 19` (the largest exponent whose power of ten fits in
`u64`); for every market the returned value is a `u64` value, the power
having wrapped modulo `2^64` for larger exponents. -/
theorem c9_precision_exact_amended :
    (∀ m : SpotMarket, m.decimals ≤ 19 → m.get_precision = 10 ^ m.decimals) ∧
    (∀ m : SpotMarket, m.get_precision < U64_MOD) := by
  constructor
  · intro m h
    unfold SpotMarket.get_precision
    apply Nat.mod_eq_of_lt
    have h1 : (10 : Nat) ^ m.decimals ≤ 10 ^ 19 :=
      Nat.pow_le_pow_right (by norm_num) h
    have h2 : (10 : Nat) ^ 19 < U64_MOD := by norm_num [U64_MOD]
    omega
  · intro m
    exact Nat.mod_lt _ (by norm_num [U64_MOD])

/-- Witness for the amended C9 theorem at the base market. -/
theorem c9_precision_exact_witness :
    default_base_market.get_precision = 10 ^ (9 : Nat) :=
  c9_precision_exact_amended.1 default_base_market (by decide)

/-- C10 (confirmed): `get_margin_ratio` reads only the two flat liability
weight fields — two markets agreeing on them (and possibly differing in
`imf_factor`, `decimals`, balances or any other field) yield identical
results for every requirement type. -/
theorem c10_margin_ratio_flat_only :
    ∀ (m1 m2 : SpotMarket) (rt : MarginRequirementType),
      m1.initial_liability_weight = m2.initial_liability_weight →
      m1.maintenance_liability_weight = m2.maintenance_liability_weight →
      m1.get_margin_ratio rt = m2.get_margin_ratio rt := by
  intro m1 m2 rt h1 h2
  unfold SpotMarket.get_margin_ratio SpotMarket.base_liability_weight
  cases rt <;> simp [h1, h2]

/-- Witness for C10: two markets differing only in `imf_factor`, `decimals`
and a balance field yield the same margin ratio. -/
theorem c10_margin_ratio_flat_only_witness :
    default_base_market.get_margin_ratio .Initial =
      margin_ratio_variant_market.get_margin_ratio .Initial :=
  c10_margin_ratio_flat_only _ _ _ rfl rfl

/-- C5 (corrected), counterexample: monotonicity in size fails across the
rescaling's `u128` wrap-around: with `decimals = 0` and `imf_factor = 1`,
the size `10^27` rescales to `10^36` and is discounted to weight `0`, while
the larger size `2^119` rescales (after the multiplication wraps to `0`) to
`0` and receives the full base weight `8000`. -/
theorem c5_wraparound_counterexample :
    (10 ^ 27 : Nat) < 2 ^ 119 ∧
    0 < wrap_discount_market.imf_factor ∧
    wrap_discount_market.get_asset_weight (10 ^ 27) .Initial = .ok 0 ∧
    wrap_discount_market.get_asset_weight (2 ^ 119) .Initial = .ok 8000 ∧
    (0 : Nat) < 8000 :=
  ⟨by decide, by decide, rfl, rfl, by decide⟩

/-- C5 (corrected), amended: `get_asset_weight(·, Initial)` is monotonic
non-increasing in size provided the rescaling does not wrap (`decimals ≤ 38`
and the larger size's scale-up product fits in `u128`); the discount is a
no-op — the flat `initial_asset_weight` is returned — whenever
`imf_factor = 0` (any size) or the size is `0`; and the concrete scenario
(`decimals = 9`, base weight `8000`, `imf_factor = 0`, size `10^6`) returns
exactly `8000`. -/
theorem c5_asset_weight_discount_amended :
    (∀ (m : SpotMarket) (s1 s2 w1 w2 : Nat), m.decimals ≤ 38 →
      s2 * AMM_RESERVE_PRECISION < U128_MOD → s1 ≤ s2 →
      m.get_asset_weight s1 .Initial = .ok w1 →
      m.get_asset_weight s2 .Initial = .ok w2 → w2 ≤ w1) ∧
    (∀ (m : SpotMarket) (size : Nat), m.decimals ≤ 127 → m.imf_factor = 0 →
      m.get_asset_weight size .Initial = .ok m.initial_asset_weight) ∧
    (∀ m : SpotMarket, m.decimals ≤ 127 → m.initial_asset_weight < U32_MOD →
      m.get_asset_weight 0 .Initial = .ok m.initial_asset_weight) ∧
    default_base_market.get_asset_weight 1000000 .Initial = .ok 8000 := by
  refine ⟨?_, ?_, ?_, rfl⟩
  · intro m s1 s2 w1 w2 hd hov hs h1 h2
    unfold SpotMarket.get_asset_weight at h1 h2
    obtain ⟨v1, hv1⟩ := @scale_isOk s1 m.decimals (by omega)
    obtain ⟨v2, hv2⟩ := @scale_isOk s2 m.decimals (by omega)
    rw [hv1] at h1
    rw [hv2] at h2
    dsimp only at h1 h2
    exact discount_mono (scale_mono hd hov hs hv1 hv2) h1 h2
  · intro m size h h0
    obtain ⟨v, hv⟩ := @scale_isOk size m.decimals h
    unfold SpotMarket.get_asset_weight
    rw [hv]
    dsimp only
    rw [h0]
    unfold calculate_size_discount_asset_weight
    rw [if_pos rfl]
  · intro m h hb
    unfold SpotMarket.get_asset_weight
    rw [scale_zero h]
    dsimp only
    exact discount_at_zero hb

/-- Witness for the amended C5 theorem at concrete inputs. -/
theorem c5_asset_weight_discount_witness :
    ((7999 : Nat) ≤ 7999) ∧
    default_base_market.get_asset_weight 5 .Initial = .ok 8000 ∧
    default_base_market.get_asset_weight 0 .Initial = .ok 8000 :=
  ⟨c5_asset_weight_discount_amended.1 wrap_discount_market 10 20 7999 7999
      (by decide) (by decide) (by decide) rfl rfl,
   c5_asset_weight_discount_amended.2.1 default_base_market 5 (by decide) rfl,
   c5_asset_weight_discount_amended.2.2.1 default_base_market (by decide) (by decide)⟩

end Drift
